import Mathlib

/-!
# Verification of the MagmaSatPlus volatile-solubility core

Shallow embedding of `MagmaSatPlus.py` (VESIcal, v0.1, May 2020).  Python
floats are modelled as exact rationals (`ℚ`); transcendental library calls
(`np.exp`, `np.log`) and external numerical collaborators (`scipy`
root-solvers, the MELTS engine, sub-model laws) are passed in as explicit
function parameters, so every definition is executable and the dataflow of
the source is preserved.  Python dictionaries over the fixed oxide
vocabulary are total maps `Oxide → ℚ`; dictionaries with possibly missing
keys are `Oxide → Option ℚ`.  A Python call that can either return a value
or raise is modelled with `Except`: `.ok` is an ordinary return and
`.error` a raised exception.
-/

namespace MSP

/-- The fixed vocabulary of the 16 major-element oxides (module constant
`oxides` in the source). -/
inductive Oxide where
  | SiO2 | TiO2 | Al2O3 | Fe2O3 | Cr2O3 | FeO | MnO | MgO
  | NiO | CoO | CaO | Na2O | K2O | P2O5 | H2O | CO2
deriving DecidableEq, Fintype, Repr

/-- A single-sample composition: every oxide key present, value in wt%. -/
abbrev Comp := Oxide → ℚ

/-- Molar masses of the oxides (module constant `oxideMass`), written as the
source writes them. -/
def oxideMass : Oxide → ℚ
  | .SiO2 => 28.085 + 32
  | .MgO => 24.305 + 16
  | .FeO => 55.845 + 16
  | .CaO => 40.078 + 16
  | .Al2O3 => 2 * 26.982 + 16 * 3
  | .Na2O => 22.99 * 2 + 16
  | .K2O => 39.098 * 2 + 16
  | .MnO => 54.938 + 16
  | .TiO2 => 47.867 + 32
  | .P2O5 => 2 * 30.974 + 5 * 16
  | .Cr2O3 => 51.996 * 2 + 3 * 16
  | .NiO => 58.693 + 16
  | .CoO => 28.01 + 16
  | .Fe2O3 => 55.845 * 2 + 16 * 3
  | .H2O => 18.02
  | .CO2 => 44.01

/-- Cations per formula unit of each oxide (module constant `CationNum`). -/
def CationNum : Oxide → ℚ
  | .SiO2 => 1 | .MgO => 1 | .FeO => 1 | .CaO => 1
  | .Al2O3 => 2 | .Na2O => 2 | .K2O => 2 | .MnO => 1
  | .TiO2 => 1 | .P2O5 => 2 | .Cr2O3 => 2 | .NiO => 1
  | .CoO => 1 | .Fe2O3 => 2 | .H2O => 2 | .CO2 => 1

theorem oxideMass_pos : ∀ ox : Oxide, 0 < oxideMass ox := by
  intro ox; cases ox <;> norm_num [oxideMass]

theorem CationNum_pos : ∀ ox : Oxide, 0 < CationNum ox := by
  intro ox; cases ox <;> norm_num [CationNum]

/-! ## Composition conversions (`wtpercentOxides_to_*`)

The source builds a new series keyed by cation names via the one-to-one
renaming `oxides_to_cations`; since that map is a bijection onto the 16
cation symbols, the result is indexed here by the oxide it came from. -/

/-- The un-normalised cation proportions built in
`wtpercentOxides_to_molCations`: `CationNum[ox]*oxides[ox]/oxideMass[ox]`. -/
def molCationsRaw (w : Comp) : Comp :=
  fun ox => CationNum ox * w ox / oxideMass ox

/-- `wtpercentOxides_to_molCations` (single-sample core): cation proportions
renormalised by their own sum (`molCations = molCations/molCations.sum()`). -/
def wtpercentOxides_to_molCations (w : Comp) : Comp :=
  fun ox => molCationsRaw w ox / Finset.univ.sum (molCationsRaw w)

/-- The un-normalised oxide proportions built in
`wtpercentOxides_to_molOxides`: `_oxides[ox]/oxideMass[ox]`. -/
def molOxidesRaw (w : Comp) : Comp :=
  fun ox => w ox / oxideMass ox

/-- `wtpercentOxides_to_molOxides` (single-sample core): molar proportions
renormalised by their own sum (`molOxides = molOxides/molOxides.sum()`). -/
def wtpercentOxides_to_molOxides (w : Comp) : Comp :=
  fun ox => molOxidesRaw w ox / Finset.univ.sum (molOxidesRaw w)

/-! ## Normalization routines -/

/-- `sum(single_sample.values())` for a dict holding the 16 oxides. -/
def compTotal (c : Comp) : ℚ := Finset.univ.sum c

/-- `normalize` / `single_normalize`:
`{k: 100.0 * v / sum(single_sample.values()) for k, v in single_sample.items()}`. -/
def normalize (c : Comp) : Comp :=
  fun k => 100.0 * c k / compTotal c

/-- Sum of the non-volatile (anhydrous) entries of a composition. -/
def anhydrousTotal (c : Comp) : ℚ :=
  Finset.univ.sum fun ox => if ox = Oxide.H2O ∨ ox = Oxide.CO2 then 0 else c ox

/-- `normalize_FixedVolatiles` / `single_FixedVolatiles`: volatiles kept
fixed, other oxides rescaled so the total is 100 wt%
(`normalized = normalized/np.sum(normalized)*(100-volatiles)`). -/
def single_FixedVolatiles (c : Comp) : Comp :=
  let vols := c Oxide.CO2 + c Oxide.H2O
  fun ox =>
    if ox = Oxide.H2O ∨ ox = Oxide.CO2 then c ox
    else c ox / anhydrousTotal c * (100 - vols)

/-- `normalize_AdditionalVolatiles` / `single_AdditionalVolatiles`:
non-volatile oxides normalised to 100 wt%, volatiles retained unchanged. -/
def single_AdditionalVolatiles (c : Comp) : Comp :=
  fun ox =>
    if ox = Oxide.H2O ∨ ox = Oxide.CO2 then c ox
    else c ox / anhydrousTotal c * 100

/-- One row of `multi_normalize`: every oxide column scaled by `100/Sum`. -/
def multi_normalize_row (c : Comp) : Comp :=
  fun ox => 100.0 * c ox / compTotal c

/-- One row of `multi_FixedVolatiles`: anhydrous columns scaled to 100 then
divided by `100/(100-Sum_vols)`; volatile columns unchanged. -/
def multi_FixedVolatiles_row (c : Comp) : Comp :=
  let sumAnhy := anhydrousTotal c
  let sumVols := c Oxide.H2O + c Oxide.CO2
  fun ox =>
    if ox = Oxide.H2O ∨ ox = Oxide.CO2 then c ox
    else (100.0 * c ox / sumAnhy) / (100.0 / (100.0 - sumVols))

/-- One row of `multi_AdditionalVolatiles`: anhydrous columns scaled to 100;
volatile columns unchanged. -/
def multi_AdditionalVolatiles_row (c : Comp) : Comp :=
  fun ox =>
    if ox = Oxide.H2O ∨ ox = Oxide.CO2 then c ox
    else 100.0 * c ox / anhydrousTotal c

/-! ## The module's exception taxonomy and Python-level calling convention

`MagmaSatPlus.py` defines exactly three exception classes: `Error`,
`InputError(Error)` and `SaturationError(Error)` (source lines 52-77).
No other exception class exists in the module; in particular no
`NumericalConvergenceError` is defined anywhere. -/

/-- The exceptions the module can raise. -/
inductive MSPException where
  | base
  | inputError (message : String)
  | saturationError (message : String)
deriving DecidableEq, Repr

/-- The run-time type of a value handed to the composition utilities:
a dict, a pandas Series, a pandas DataFrame, an `ExcelFile` (whose `.data`
is a DataFrame), or anything else (a float, a string, ...). -/
inductive PyIn where
  | dict (c : Comp)
  | series (c : Comp)
  | dataframe (rows : List Comp)
  | excel (rows : List Comp)
  | other

/-- The value a composition utility returns.  `errObject` is an `InputError`
INSTANCE handed back with `return` — an ordinary return value, not a raised
exception.  `pyNone` is Python's implicit `None` return. -/
inductive PyVal where
  | series (c : Comp)
  | dict (c : Comp)
  | dataframe (rows : List Comp)
  | pyNone
  | errObject (message : String)

/-- The `InputError` message used by `wtpercentOxides_to_molCations`,
`wtpercentOxides_to_molOxides` and the other converters. -/
def convInputMsg : String :=
  "The composition input must be a pandas Series or dictionary."

/-- The `InputError` message used by `normalize_FixedVolatiles` and
`normalize_AdditionalVolatiles` (the backslash line continuation in the
source keeps the seven tabs of the second line inside the string). -/
def normInputMsg : String :=
  "The composition input must be a pandas Series or dictionary for single sample \t\t\t\t\t\t\tor a pandas DataFrame or ExcelFile object for multi-sample."

/-- `wtpercentOxides_to_molCations` with the source's type dispatch: dict and
Series inputs are converted; any other input makes the function RETURN an
`InputError` object (`return InputError(...)`, source line 148) — the
`Except` layer stays `.ok`, i.e. nothing is raised. -/
def wtpercentOxides_to_molCations_py : PyIn → Except MSPException PyVal
  | .dict c => .ok (.series (wtpercentOxides_to_molCations c))
  | .series c => .ok (.series (wtpercentOxides_to_molCations c))
  | _ => .ok (.errObject convInputMsg)

/-- `wtpercentOxides_to_molOxides` with the source's type dispatch (source
line 178 returns the `InputError` object for any non-dict non-Series). -/
def wtpercentOxides_to_molOxides_py : PyIn → Except MSPException PyVal
  | .dict c => .ok (.series (wtpercentOxides_to_molOxides c))
  | .series c => .ok (.series (wtpercentOxides_to_molOxides c))
  | _ => .ok (.errObject convInputMsg)

/-- `normalize` with the source's type dispatch.  There is no `else` branch
in the source: an unrecognised input falls off the `if`/`elif` chain and the
function returns Python's `None`. -/
def normalize_py : PyIn → Except MSPException PyVal
  | .dict c => .ok (.dict (normalize c))
  | .series c => .ok (.series (normalize c))
  | .excel rows => .ok (.dataframe (rows.map multi_normalize_row))
  | .dataframe rows => .ok (.dataframe (rows.map multi_normalize_row))
  | .other => .ok .pyNone

/-- `normalize_FixedVolatiles` with the source's type dispatch (source lines
360-362: the `else` branch RETURNS an `InputError` object). -/
def normalize_FixedVolatiles_py : PyIn → Except MSPException PyVal
  | .dict c => .ok (.dict (single_FixedVolatiles c))
  | .series c => .ok (.series (single_FixedVolatiles c))
  | .excel rows => .ok (.dataframe (rows.map multi_FixedVolatiles_row))
  | .dataframe rows => .ok (.dataframe (rows.map multi_FixedVolatiles_row))
  | .other => .ok (.errObject normInputMsg)

/-- `normalize_AdditionalVolatiles` with the source's type dispatch (source
lines 421-423: the `else` branch RETURNS an `InputError` object). -/
def normalize_AdditionalVolatiles_py : PyIn → Except MSPException PyVal
  | .dict c => .ok (.dict (single_AdditionalVolatiles c))
  | .series c => .ok (.series (single_AdditionalVolatiles c))
  | .excel rows => .ok (.dataframe (rows.map multi_AdditionalVolatiles_row))
  | .dataframe rows => .ok (.dataframe (rows.map multi_AdditionalVolatiles_row))
  | .other => .ok (.errObject normInputMsg)

/-! ## Fugacity models -/

/-- `fugacity_idealgas.fugacity`: the partial pressure `pressure*X_fluid`. -/
def fugacity_idealgas (pressure X_fluid : ℚ) : ℚ := pressure * X_fluid

/-- The result object of a `scipy.optimize.root_scalar` call: the final
iterate `root` together with the `converged` flag.  When the secant
iteration exhausts its budget or breaks down, scipy hands this object back
with `converged = False` instead of raising. -/
structure RootResults where
  root : ℚ
  isConverged : Bool

/-- The initial-guess selection of `fugacity_KJ81_co2.volume` (source lines
1113-1125): the seed depends on whether `P >= 20000 and T < 800`. -/
def KJ81co2_volume_x0 (P T X_fluid : ℚ) : ℚ :=
  if X_fluid ≠ 1.0 then
    if P ≥ 20000 ∧ T < 800 then X_fluid * 25 + (1 - X_fluid) * 15
    else X_fluid * 35 + (1 - X_fluid) * 15
  else
    if P ≥ 20000 ∧ T < 800 then 25 else 35

/-- `fugacity_KJ81_co2.volume` (source line 1126):
`return root_scalar(self.root_volume, x0=x0, x1=x0*0.9, args=(P,T,X_fluid)).root`.
The secant solver for `root_volume` is the parameter `solver`, receiving the
two seed points; the source takes `.root` from its result object
UNCONDITIONALLY — the `converged` flag is never inspected and no exception
is ever raised on this path, so the `Except` layer is always `.ok`. -/
def KJ81co2_volume (solver : ℚ → ℚ → RootResults) (P T X_fluid : ℚ) :
    Except MSPException ℚ :=
  let x0 := KJ81co2_volume_x0 P T X_fluid
  Except.ok (solver x0 (x0 * 0.9)).root

/-- `fugacity_KJ81_co2.fugacity` (source lines 1087-1092).  `expQ` stands
for `np.exp` and `lnPhi` for the method `lnPhi_mix`, which obtains the
molar volume from the root solver (`volume`) and evaluates the analytic
fugacity-coefficient expression. -/
def KJ81co2_fugacity (expQ : ℚ → ℚ) (lnPhi : ℚ → ℚ → ℚ → ℚ)
    (pressure temperature X_fluid : ℚ) : ℚ :=
  if X_fluid = 0 then 0
  else if temperature ≥ 1050.0 + 273.15 then
    pressure * expQ (lnPhi pressure temperature 1.0) * X_fluid
  else
    pressure * expQ (lnPhi pressure temperature X_fluid) * X_fluid

/-! ## Single-species CO2 solubility laws -/

/-- `ShishkinaCarbon.PiStar` (Shishkina et al. 2014, Eq 11); the cation
series is indexed here by the oxide each cation came from. -/
def Shishkina_PiStar (sample : Comp) : ℚ :=
  let mols := wtpercentOxides_to_molCations sample
  (mols Oxide.CaO + 0.8 * mols Oxide.K2O + 0.7 * mols Oxide.Na2O
      + 0.4 * mols Oxide.MgO + 0.4 * mols Oxide.FeO)
    / (mols Oxide.SiO2 + mols Oxide.Al2O3)

/-- `ShishkinaCarbon.calculate_dissolved_volatiles` (source lines
1716-1744): ideal-gas fugacity; `if fugacity == 0: return 0`, else the
log-linear fit.  `expQ`/`logQ` stand for `np.exp`/`np.log`. -/
def ShishkinaCarbon_dissolved (expQ logQ : ℚ → ℚ)
    (pressure : ℚ) (sample : Comp) (X_fluid : ℚ) : ℚ :=
  let piStar := Shishkina_PiStar sample
  let fugacity := fugacity_idealgas pressure X_fluid
  let A : ℚ := 1.150
  let B : ℚ := 6.71
  let C : ℚ := -1.345
  if fugacity = 0 then 0
  else expQ (A * logQ (fugacity / 10) + B * piStar + C) / 1e4

/-- `DixonCarbon.XCO3_Std` (Dixon 1997, Eq 8). -/
def DixonCarbon_XCO3_Std (sample : Comp) : ℚ :=
  8.7e-6 - 1.7e-7 * sample Oxide.SiO2

/-- `DixonCarbon.molfrac_molecular` (source lines 2087-2114): the dissolved
carbonate mole fraction, proportional to the CO2 fugacity delivered by the
Kerrick-Jacobs EOS model. -/
def DixonCarbon_molfrac_molecular (expQ : ℚ → ℚ) (lnPhi : ℚ → ℚ → ℚ → ℚ)
    (pressure temperature : ℚ) (sample : Comp) (X_fluid : ℚ) : ℚ :=
  let DeltaVr : ℚ := 23
  let P0 : ℚ := 1
  let R : ℚ := 83.15
  let T0 : ℚ := 1473.15
  let fugacity := KJ81co2_fugacity expQ lnPhi pressure temperature X_fluid
  let XCO3Std := DixonCarbon_XCO3_Std sample
  XCO3Std * fugacity * expQ (-DeltaVr * (pressure - P0) / (R * T0))

/-- `DixonCarbon.calculate_dissolved_volatiles` (source lines 2022-2041):
`(4400 * XCO3) / (36.6 - 44*XCO3)`. -/
def DixonCarbon_dissolved (expQ : ℚ → ℚ) (lnPhi : ℚ → ℚ → ℚ → ℚ)
    (pressure temperature : ℚ) (sample : Comp) (X_fluid : ℚ) : ℚ :=
  let XCO3 := DixonCarbon_molfrac_molecular expQ lnPhi pressure temperature sample X_fluid
  (4400 * XCO3) / (36.6 - 44 * XCO3)

/-- `IaconoMarzianoCarbon.NBO_O` (source lines 2870-2895). -/
def IM_NBO_O (hydrous : Bool) (sample : Comp) : ℚ :=
  let X := wtpercentOxides_to_molOxides sample
  let NBO := 2 * (X Oxide.K2O + X Oxide.Na2O + X Oxide.CaO + X Oxide.MgO
      + X Oxide.FeO - X Oxide.Al2O3)
  let O := 2 * X Oxide.SiO2 + 2 * X Oxide.TiO2 + 3 * X Oxide.Al2O3
      + X Oxide.MgO + X Oxide.FeO + X Oxide.CaO + X Oxide.Na2O + X Oxide.K2O
  if hydrous then (NBO + 2 * X Oxide.H2O) / (O + X Oxide.H2O)
  else NBO / O

/-- `IaconoMarzianoCarbon.calculate_dissolved_volatiles` (source lines
2728-2796).  The hydrous parameterization first obtains the coexisting
dissolved-water content from the `IaconoMarzianoWater` law (parameter
`im_h2o`) and substitutes it into a copy of the sample; the constants `d`,
`a`, `b`, `B`, `C` differ per branch.  The ideal-gas fugacity is computed
and `if fugacity == 0: return 0` short-circuits before the fitted
exponential. -/
def IMCarbon_dissolved (expQ logQ : ℚ → ℚ)
    (im_h2o : ℚ → ℚ → Comp → ℚ → ℚ) (hydrous : Bool)
    (pressure temperature : ℚ) (sample : Comp) (X_fluid : ℚ) : ℚ :=
  let sample_used : Comp :=
    if hydrous then
      let h2o := im_h2o pressure temperature sample (1 - X_fluid)
      fun ox => if ox = Oxide.H2O then h2o else sample ox
    else sample
  let d0 : ℚ := if hydrous then -16.4 else 2.3
  let d1 : ℚ := if hydrous then 4.4 else 3.8
  let d2 : ℚ := if hydrous then -17.1 else -16.3
  let d3 : ℚ := if hydrous then 22.8 else 20.1
  let a : ℚ := 1.0
  let b : ℚ := if hydrous then 17.3 else 15.8
  let B : ℚ := if hydrous then -6.0 else -5.3
  let C : ℚ := if hydrous then 0.12 else 0.14
  let nbo_o := IM_NBO_O hydrous sample_used
  let molarProps := wtpercentOxides_to_molOxides sample_used
  let fugacity := fugacity_idealgas pressure X_fluid
  if fugacity = 0 then 0
  else
    let x0 := molarProps Oxide.H2O
    let x1 := molarProps Oxide.Al2O3
        / (molarProps Oxide.CaO + molarProps Oxide.K2O + molarProps Oxide.Na2O)
    let x2 := molarProps Oxide.FeO + molarProps Oxide.MgO
    let x3 := molarProps Oxide.Na2O + molarProps Oxide.K2O
    let CO3 := expQ (x0 * d0 + x1 * d1 + x2 * d2 + x3 * d3
        + a * logQ fugacity + b * nbo_o + B + C * pressure / temperature)
    CO3 / 1e4

/-! ## Mixed-Fluid Coordinator (`class MixedFluids`) -/

/-- A configured single-species solubility law, as the coordinator sees it:
`calculate_dissolved_volatiles(pressure, X_fluid, sample) -> wt%`. -/
abbrev SolLaw := ℚ → ℚ → Comp → ℚ

/-- `MixedFluids.calculate_dissolved_volatiles` (source lines 3143-3152).
When `len(X_fluid) != len(self.volatile_species)` the source only executes
`print('YOU NEED TO WRITE THE CODE TO RAISE AN ERROR! 0')` and falls
through; no exception is raised on any path, so the `Except` layer is
always `.ok`.  The final `zip(self.models, X_fluid)` silently truncates to
the shorter of the two sequences. -/
def MixedFluids_dissolved_volatiles (models : List SolLaw) (pressure : ℚ)
    (X_fluid : List ℚ) (sample : Comp) : Except MSPException (List ℚ) :=
  Except.ok ((models.zip X_fluid).map fun mX => mX.1 pressure mX.2 sample)

/-- `MixedFluids.root_for_fluid_comp` (source lines 3241-3255), for the
two-species coordinator with laws `m0`, `m1` for volatile species `sp0`,
`sp1`.  `wtm0, wtm1` unpack `calculate_dissolved_volatiles` at the fluid
composition `(Xv0, 1-Xv0)`; the trial melt is re-normalised with fixed
volatiles and the mass-balance residual uses one-sided limiting forms at
`Xv0 = 0` and `Xv0 = 1`. -/
def MixedFluids_root_for_fluid_comp (m0 m1 : SolLaw) (sp0 sp1 : Oxide)
    (Xv0 pressure Xt0 Xt1 : ℚ) (sample : Comp) : ℚ :=
  let wtm0 := m0 pressure Xv0 sample
  let wtm1 := m1 pressure (1 - Xv0) sample
  let sample_mod : Comp := fun ox =>
    if ox = sp0 then wtm0 else if ox = sp1 then wtm1 else sample ox
  let sample_mod2 := single_FixedVolatiles sample_mod
  let cations := wtpercentOxides_to_molOxides sample_mod2
  let Xm0 := cations sp0
  let Xm1 := cations sp1
  if Xv0 = 0 then Xt0 - Xm0 * (Xt1 - 1) / (Xm1 - 1)
  else if Xv0 = 1 then -(Xt1 - Xm1 * (Xt0 - 1) / (Xm0 - 1))
  else (Xt0 - Xm0) / (Xv0 - Xm0) - (Xt1 - Xm1) / (1 - Xv0 - Xm1)

/-- `MixedFluids.calculate_equilibrium_fluid_comp` (source lines 3154-3173).
`satPfn` is the coordinator's own `calculate_saturation_pressure` (a 2-D
`scipy.optimize.root` search) and `bracketSolver f a b` is
`root_scalar(f, bracket=(a,b)).root`.  If the two-species saturation
pressure is below the queried pressure the melt is undersaturated and
`(0,0)` is returned; otherwise the residual `root_for_fluid_comp` is solved
on the bracket `(0,1)` and `(Xv0, 1-Xv0)` is returned. -/
def MixedFluids_equilibrium_fluid_comp (m0 m1 : SolLaw) (sp0 sp1 : Oxide)
    (satPfn : Comp → ℚ) (bracketSolver : (ℚ → ℚ) → ℚ → ℚ → ℚ)
    (pressure : ℚ) (sample : Comp) : ℚ × ℚ :=
  let satP := satPfn sample
  if satP < pressure then (0, 0)
  else
    let sample_mod := single_FixedVolatiles sample
    let molfracs := wtpercentOxides_to_molOxides sample_mod
    let Xt0 := molfracs sp0
    let Xt1 := molfracs sp1
    let Xv0 := bracketSolver
      (fun x => MixedFluids_root_for_fluid_comp m0 m1 sp0 sp1 x pressure Xt0 Xt1 sample)
      0 1
    (Xv0, 1 - Xv0)

/-! ## MagmaSat (the external-Equilibrium-Engine model)

The engine contract is bars on the public API, MPa at the engine boundary.
The definitions below record, for each public operation, exactly the
pressure value the source hands to `melts.equilibrate_tp` and the value it
reports back. -/

/-- `MagmaSat.calculate_dissolved_volatiles`, source line 3439:
`pressureMPa = pressure / 10.0` is what every `equilibrate_tp` call of this
operation receives (also `get_fluid_mass` line 3330 and `get_XH2O_fluid`
line 3373). -/
def MagmaSat_dissolved_enginePressure (pressure : ℚ) : ℚ := pressure / 10.0

/-- `MagmaSat.calculate_equilibrium_fluid_comp`, source line 3595:
`pressureMPa = pressure / 10.0`. -/
def MagmaSat_eqfluid_enginePressure (pressure : ℚ) : ℚ := pressure / 10.0

/-- `MagmaSat.calculate_saturation_pressure`, source line 3701: the final
engine-side pressure (MPa) is reported as `satP = pressureMPa*10` (bars). -/
def MagmaSat_satP_reported (finalPressureMPa : ℚ) : ℚ := finalPressureMPa * 10

/-- `np.arange(1.0, stop, 10)`: the ascending grid `1, 11, 21, ...` strictly
below `stop`. -/
def np_arange_step10 (stop : ℚ) : List ℚ :=
  (List.range (Int.toNat ⌈(stop - 1.0) / 10⌉)).map fun (k : ℕ) => 1.0 + 10 * (k : ℚ)

/-- `MagmaSat.calculate_degassing_paths`, source lines 3845-3851 (closed
system): `SatP_MPa = data["SaturationP_bars"]` — a BAR value bound to a
variable named MPa — and `P_array = -np.sort(-np.arange(1.0, SatP_MPa+10.0, 10))`,
the descending pressure ramp. -/
def MagmaSat_degassing_P_array (satP_bars : ℚ) : List ℚ :=
  (np_arange_step10 (satP_bars + 10.0)).reverse

/-- The pressures `calculate_degassing_paths` passes to
`melts.equilibrate_tp(temperature, P_array)` (source line 3851): the ramp
values themselves, with no bar-to-MPa division anywhere on this path. -/
def MagmaSat_degassing_enginePressures (satP_bars : ℚ) : List ℚ :=
  MagmaSat_degassing_P_array satP_bars

/-- `MagmaSat.preprocess_sample` (source lines 3288-3296).  The argument is
a Python dict, possibly missing oxide keys (`Option`); the loop executes
`sample[oxide] = 0.0` for each missing key ON THE CALLER'S DICT, and the
same object is returned.  The result pair is (return value, caller's dict
after the call) — one and the same mapping. -/
def MagmaSat_preprocess_sample (sample : Oxide → Option ℚ) :
    (Oxide → Option ℚ) × (Oxide → Option ℚ) :=
  let mutated : Oxide → Option ℚ := fun ox =>
    match sample ox with
    | some v => some v
    | none => some 0.0
  (mutated, mutated)

/-- One step of the loop body of `MagmaSat.calculate_degassing_paths`
(source lines 3886-3893 closed system, 4013-4020 open system): the caller's
`sample` dict has `sample["H2O"]` and `sample["CO2"]` overwritten with the
equilibrium liquid values (`0` when the liquid composition lacks the key —
the `try`/`except` default).  Returns the caller's dict after the step. -/
def MagmaSat_degassing_step_sample (sample : Oxide → Option ℚ)
    (liq_H2O liq_CO2 : Option ℚ) : Oxide → Option ℚ :=
  fun ox =>
    if ox = Oxide.H2O then some (liq_H2O.getD 0)
    else if ox = Oxide.CO2 then some (liq_CO2.getD 0)
    else sample ox

/-! ## Concrete fixtures used by the evaluation theorems -/

/-- The example basaltic composition of the specification (SiO2 50, Al2O3
18, FeO 8, MgO 7, CaO 11, Na2O 3, K2O 1, H2O 4, CO2 0.5, remaining
oxides 0). -/
def sampleBasalt : Comp := fun ox =>
  match ox with
  | .SiO2 => 50 | .Al2O3 => 18 | .FeO => 8 | .MgO => 7 | .CaO => 11
  | .Na2O => 3 | .K2O => 1 | .H2O => 4 | .CO2 => 1/2 | _ => 0

/-- Unfolding of a sum over the 16-oxide vocabulary into its 16 summands. -/
theorem sum_univ_oxide (f : Oxide → ℚ) :
    Finset.univ.sum f
      = f .SiO2 + (f .TiO2 + (f .Al2O3 + (f .Fe2O3 + (f .Cr2O3 + (f .FeO
        + (f .MnO + (f .MgO + (f .NiO + (f .CoO + (f .CaO + (f .Na2O
        + (f .K2O + (f .P2O5 + (f .H2O + (f .CO2 + 0))))))))))))))) := rfl

/-- A caller-supplied dict carrying only SiO2 and H2O; every other oxide key
is absent. -/
def sampleSparse : Oxide → Option ℚ := fun ox =>
  match ox with
  | .SiO2 => some 50
  | .H2O => some 4
  | _ => none

/-- A caller-supplied dict for the degassing path, with H2O 4 wt% and CO2
0.5 wt%. -/
def sampleForDegassing : Oxide → Option ℚ := fun ox =>
  match ox with
  | .SiO2 => some 50
  | .H2O => some 4
  | .CO2 => some 0.5
  | _ => none

/-! ## Claim theorems -/

/-- C1: the claim says a call to `MixedFluids.calculate_dissolved_volatiles`
with an `X_fluid` of length ≠ 2 (the number of configured volatile species)
raises `InputError`.  The code instead prints a placeholder and returns a
zip-truncated result: with two configured laws and the length-1 argument
`X_fluid = (0.5,)` at 1000 bars the call returns the ordinary value
`(law0(1000, 0.5),) = (500,)` and no exception of any kind is raised. -/
theorem C1_wrong_length_X_fluid_returns_instead_of_raising :
    ([(1 : ℚ)/2] : List ℚ).length ≠ 2 ∧
    MixedFluids_dissolved_volatiles
        [fun p x _ => p * x, fun p x _ => p + x] 1000 [1/2] sampleBasalt
      = .ok [500] ∧
    ∀ e : MSPException,
      MixedFluids_dissolved_volatiles
          [fun p x _ => p * x, fun p x _ => p + x] 1000 [1/2] sampleBasalt
        ≠ .error e := by
  refine ⟨by simp, by norm_num [MixedFluids_dissolved_volatiles], ?_⟩
  intro e
  simp [MixedFluids_dissolved_volatiles]

/-- C2: the claim says a non-bracketing/non-converging run of the molar
volume root solver surfaces as a raised `NumericalConvergenceError`.  The
module defines no such exception (only `Error`, `InputError`,
`SaturationError`) and `fugacity_KJ81_co2.volume` returns
`root_scalar(...).root` unconditionally: for EVERY solver outcome the call
returns `.ok` of the final iterate, and in particular a solver result with
`converged = False` (here the solver that stalls at `x0 + 2`) yields the
ordinary return value 37 at (P,T,X_fluid) = (1000, 700, 1) rather than any
exception. -/
theorem C2_nonconverged_volume_returned_not_raised :
    (∀ (solver : ℚ → ℚ → RootResults) (P T X_fluid : ℚ),
        KJ81co2_volume solver P T X_fluid
          = .ok (solver (KJ81co2_volume_x0 P T X_fluid)
              (KJ81co2_volume_x0 P T X_fluid * 0.9)).root) ∧
    ((fun x0 _ => ⟨x0 + 2, false⟩ : ℚ → ℚ → RootResults) 35 (35 * 0.9)).isConverged
        = false ∧
    KJ81co2_volume (fun x0 _ => ⟨x0 + 2, false⟩) 1000 700 1.0 = .ok 37 ∧
    ∀ e : MSPException,
      KJ81co2_volume (fun x0 _ => ⟨x0 + 2, false⟩) 1000 700 1.0 ≠ .error e := by
  refine ⟨fun solver P T X_fluid => rfl, rfl,
    by norm_num [KJ81co2_volume, KJ81co2_volume_x0], ?_⟩
  intro e
  simp [KJ81co2_volume]

/-- C3: `MixedFluids.calculate_equilibrium_fluid_comp` returns `(0,0)`
(undersaturated, no fluid phase) whenever the queried pressure strictly
exceeds the coordinator's two-species saturation pressure for the sample;
otherwise it returns `(Xv0, 1-Xv0)` where `Xv0` is the root of
`root_for_fluid_comp` found by the solver on the bracket `(0,1)`. -/
theorem C3_equilibrium_fluid_comp_undersaturated_and_rootfind
    (m0 m1 : SolLaw) (sp0 sp1 : Oxide) (satPfn : Comp → ℚ)
    (bracketSolver : (ℚ → ℚ) → ℚ → ℚ → ℚ) (pressure : ℚ) (sample : Comp) :
    (satPfn sample < pressure →
      MixedFluids_equilibrium_fluid_comp m0 m1 sp0 sp1 satPfn bracketSolver
          pressure sample = (0, 0)) ∧
    (¬ satPfn sample < pressure →
      MixedFluids_equilibrium_fluid_comp m0 m1 sp0 sp1 satPfn bracketSolver
          pressure sample
        = (bracketSolver
            (fun x => MixedFluids_root_for_fluid_comp m0 m1 sp0 sp1 x pressure
              (wtpercentOxides_to_molOxides (single_FixedVolatiles sample) sp0)
              (wtpercentOxides_to_molOxides (single_FixedVolatiles sample) sp1)
              sample) 0 1,
           1 - bracketSolver
            (fun x => MixedFluids_root_for_fluid_comp m0 m1 sp0 sp1 x pressure
              (wtpercentOxides_to_molOxides (single_FixedVolatiles sample) sp0)
              (wtpercentOxides_to_molOxides (single_FixedVolatiles sample) sp1)
              sample) 0 1)) := by
  unfold MixedFluids_equilibrium_fluid_comp
  constructor <;> intro h <;> simp [h]

/-- Witness for C3 at a concrete undersaturated input: saturation pressure
1000, queried pressure 2000, hence `(0,0)`. -/
theorem C3_witness :
    MixedFluids_equilibrium_fluid_comp (fun _ _ _ => 0) (fun _ _ _ => 0)
      Oxide.CO2 Oxide.H2O (fun _ => 1000) (fun _ a _ => a) 2000 sampleBasalt
      = (0, 0) :=
  (C3_equilibrium_fluid_comp_undersaturated_and_rootfind
    (fun _ _ _ => 0) (fun _ _ _ => 0) Oxide.CO2 Oxide.H2O (fun _ => 1000)
    (fun _ a _ => a) 2000 sampleBasalt).1 (by norm_num)

/-- C5: the claim says every public operation leaves the caller's
composition map unchanged.  The code mutates it in place:
`MagmaSat.preprocess_sample` writes the missing oxide keys (`sample[oxide]
= 0.0`) into the CALLER'S dict — after the call the caller's TiO2 entry is
`0.0` where before the call the key was absent — and each degassing-path
step overwrites the caller's `H2O`/`CO2` entries with the equilibrium
liquid values (4 wt% H2O before the step, 1.0 after). -/
theorem C5_caller_composition_mutated_in_place :
    ((MagmaSat_preprocess_sample sampleSparse).2 Oxide.TiO2 = some 0.0 ∧
     sampleSparse Oxide.TiO2 = none ∧
     (MagmaSat_preprocess_sample sampleSparse).2 Oxide.TiO2
       ≠ sampleSparse Oxide.TiO2) ∧
    (MagmaSat_degassing_step_sample sampleForDegassing (some 1.0) (some 0.1)
        Oxide.H2O = some 1.0 ∧
     sampleForDegassing Oxide.H2O = some 4 ∧
     MagmaSat_degassing_step_sample sampleForDegassing (some 1.0) (some 0.1)
        Oxide.H2O ≠ sampleForDegassing Oxide.H2O) := by
  exact ⟨⟨by simp [MagmaSat_preprocess_sample, sampleSparse],
      by simp [sampleSparse],
      by simp [MagmaSat_preprocess_sample, sampleSparse]⟩,
    by simp [MagmaSat_degassing_step_sample],
    by simp [sampleForDegassing],
    by norm_num [MagmaSat_degassing_step_sample, sampleForDegassing]⟩

/-- C7: the Mixed-Fluid Coordinator's dissolved-volatiles result at the
pure end-member fluid compositions `(1,0)` and `(0,1)` equals, component
by component, the single-species laws evaluated at the same pressure with
`X_fluid = 1` (and `0` for the absent species): the coordinator delegates
component-wise with no joint correction. -/
theorem C7_pure_endmember_consistency (m0 m1 : SolLaw) (pressure : ℚ)
    (sample : Comp) :
    MixedFluids_dissolved_volatiles [m0, m1] pressure [1, 0] sample
      = .ok [m0 pressure 1 sample, m1 pressure 0 sample] ∧
    MixedFluids_dissolved_volatiles [m0, m1] pressure [0, 1] sample
      = .ok [m0 pressure 0 sample, m1 pressure 1 sample] :=
  ⟨rfl, rfl⟩

/-- C9: with an input that is neither a dict nor a pandas Series (modelled
by `PyIn.other`, e.g. a float), the four composition utilities do not
raise: each RETURNS an `InputError` instance as its ordinary value (`.ok`
of an `errObject`), so the caller receives an error object in place of a
composition. -/
theorem C9_type_errors_returned_not_raised :
    wtpercentOxides_to_molCations_py PyIn.other = .ok (.errObject convInputMsg) ∧
    wtpercentOxides_to_molOxides_py PyIn.other = .ok (.errObject convInputMsg) ∧
    normalize_FixedVolatiles_py PyIn.other = .ok (.errObject normInputMsg) ∧
    normalize_AdditionalVolatiles_py PyIn.other = .ok (.errObject normInputMsg) :=
  ⟨rfl, rfl, rfl, rfl⟩

/-- C4: the claim says every pressure the core hands to the Equilibrium
Engine is the bar value divided by 10 and every reported pressure is the
engine MPa value times 10, for every public MagmaSat operation including
the degassing path.  The conversion does hold for
`calculate_dissolved_volatiles`, `calculate_equilibrium_fluid_comp` and the
`calculate_saturation_pressure` report, but `calculate_degassing_paths`
hands the engine the raw pressure ramp built from `SaturationP_bars`: for a
saturation pressure of 2000 bars the first ramp value passed to
`equilibrate_tp` is 2001 — the bar value itself, not 2001/10 MPa. -/
theorem C4_degassing_ramp_not_converted_to_MPa :
    (∀ p : ℚ, MagmaSat_dissolved_enginePressure p = p / 10) ∧
    (∀ p : ℚ, MagmaSat_eqfluid_enginePressure p = p / 10) ∧
    (∀ p : ℚ, MagmaSat_satP_reported p = p * 10) ∧
    (∀ s : ℚ, MagmaSat_degassing_enginePressures s = MagmaSat_degassing_P_array s) ∧
    (MagmaSat_degassing_enginePressures 2000).head? = some 2001 ∧
    (2001 : ℚ) ≠ 2001 / 10 := by
  refine ⟨fun p => by norm_num [MagmaSat_dissolved_enginePressure],
    fun p => by norm_num [MagmaSat_eqfluid_enginePressure],
    fun p => rfl, fun s => rfl, ?_, by norm_num⟩
  unfold MagmaSat_degassing_enginePressures MagmaSat_degassing_P_array np_arange_step10
  rw [show (Int.toNat ⌈((2000 + 10.0 : ℚ) - 1.0) / 10⌉) = 201 by
    rw [show ((2000 + 10.0 : ℚ) - 1.0) = 2009 by norm_num]
    rw [show ⌈(2009 : ℚ) / 10⌉ = 201 by rw [Int.ceil_eq_iff]; norm_num]
    rfl]
  rw [List.head?_reverse, List.getLast?_map]
  rw [show (201 : ℕ) = 200 + 1 from rfl, List.range_succ, List.getLast?_concat]
  simp
  norm_num

/-- C6: with X_fluid = 0 every CO2 law whose formula multiplies by fugacity
yields fugacity 0 and dissolved CO2 0.  The Kerrick-Jacobs CO2 fugacity
returns 0 before consulting `lnPhi_mix` (and hence before the EOS volume
root solver: the result is the same for any two `lnPhi` oracles); the
ideal-gas fugacity is `pressure*0 = 0`; and the Shishkina, Dixon and
Iacono-Marziano CO2 laws each return dissolved CO2 = 0. -/
theorem C6_zero_X_fluid_zero_fugacity_zero_CO2
    (expQ logQ : ℚ → ℚ) (lnPhi lnPhiB : ℚ → ℚ → ℚ → ℚ)
    (im_h2o : ℚ → ℚ → Comp → ℚ → ℚ) (hydrous : Bool)
    (pressure temperature : ℚ) (sample : Comp) :
    KJ81co2_fugacity expQ lnPhi pressure temperature 0 = 0 ∧
    KJ81co2_fugacity expQ lnPhi pressure temperature 0
      = KJ81co2_fugacity expQ lnPhiB pressure temperature 0 ∧
    fugacity_idealgas pressure 0 = 0 ∧
    ShishkinaCarbon_dissolved expQ logQ pressure sample 0 = 0 ∧
    DixonCarbon_dissolved expQ lnPhi pressure temperature sample 0 = 0 ∧
    IMCarbon_dissolved expQ logQ im_h2o hydrous pressure temperature sample 0 = 0 := by
  refine ⟨rfl, rfl, mul_zero pressure, ?_, ?_, ?_⟩
  · simp [ShishkinaCarbon_dissolved, fugacity_idealgas]
  · simp [DixonCarbon_dissolved, DixonCarbon_molfrac_molecular, KJ81co2_fugacity]
  · simp [IMCarbon_dissolved, fugacity_idealgas]

/-- C8: standard normalization is idempotent on compositions with a
strictly positive total — applying `normalize` twice returns the same
composition as applying it once. -/
theorem C8_normalize_idempotent (c : Comp) (h : 0 < compTotal c) :
    normalize (normalize c) = normalize c := by
  have hne : compTotal c ≠ 0 := ne_of_gt h
  have htot : compTotal (normalize c) = 100 := by
    unfold compTotal normalize
    rw [← Finset.sum_div, ← Finset.mul_sum]
    rw [show (∑ i : Oxide, c i) = compTotal c from rfl]
    rw [mul_div_assoc, div_self hne]
    norm_num
  funext k
  show 100.0 * normalize c k / compTotal (normalize c) = normalize c k
  rw [htot]
  norm_num

/-- Witness for C8 at the specification's example basalt (total
102.5 wt%). -/
theorem C8_witness :
    0 < compTotal sampleBasalt ∧
    normalize (normalize sampleBasalt) = normalize sampleBasalt := by
  have h : 0 < compTotal sampleBasalt := by
    unfold compTotal
    rw [sum_univ_oxide]
    norm_num [sampleBasalt]
  exact ⟨h, C8_normalize_idempotent sampleBasalt h⟩

/-- C10: for a composition with non-negative entries, at least one strictly
positive, both mole-fraction conversions return non-negative fractions that
sum exactly to 1 (each is renormalised by its own sum before return). -/
theorem C10_mol_fractions_nonneg_sum_one (w : Comp)
    (hnn : ∀ ox, 0 ≤ w ox) (hex : ∃ ox, 0 < w ox) :
    (∀ ox, 0 ≤ wtpercentOxides_to_molCations w ox) ∧
    Finset.univ.sum (wtpercentOxides_to_molCations w) = 1 ∧
    (∀ ox, 0 ≤ wtpercentOxides_to_molOxides w ox) ∧
    Finset.univ.sum (wtpercentOxides_to_molOxides w) = 1 := by
  obtain ⟨ox0, hox0⟩ := hex
  have hcat_nn : ∀ ox, 0 ≤ molCationsRaw w ox := fun ox =>
    div_nonneg (mul_nonneg (CationNum_pos ox).le (hnn ox)) (oxideMass_pos ox).le
  have hcat_pos : 0 < Finset.univ.sum (molCationsRaw w) :=
    Finset.sum_pos' (fun i _ => hcat_nn i)
      ⟨ox0, Finset.mem_univ ox0,
        div_pos (mul_pos (CationNum_pos ox0) hox0) (oxideMass_pos ox0)⟩
  have hox_nn : ∀ ox, 0 ≤ molOxidesRaw w ox := fun ox =>
    div_nonneg (hnn ox) (oxideMass_pos ox).le
  have hox_pos : 0 < Finset.univ.sum (molOxidesRaw w) :=
    Finset.sum_pos' (fun i _ => hox_nn i)
      ⟨ox0, Finset.mem_univ ox0, div_pos hox0 (oxideMass_pos ox0)⟩
  refine ⟨fun ox => div_nonneg (hcat_nn ox) hcat_pos.le, ?_,
    fun ox => div_nonneg (hox_nn ox) hox_pos.le, ?_⟩
  · unfold wtpercentOxides_to_molCations
    rw [← Finset.sum_div, div_self hcat_pos.ne']
  · unfold wtpercentOxides_to_molOxides
    rw [← Finset.sum_div, div_self hox_pos.ne']

/-- Witness for C10 at the specification's example basalt. -/
theorem C10_witness :
    Finset.univ.sum (wtpercentOxides_to_molCations sampleBasalt) = 1 ∧
    Finset.univ.sum (wtpercentOxides_to_molOxides sampleBasalt) = 1 := by
  have hnn : ∀ ox, 0 ≤ sampleBasalt ox := by
    intro ox; cases ox <;> norm_num [sampleBasalt]
  have hex : ∃ ox, 0 < sampleBasalt ox :=
    ⟨Oxide.SiO2, by norm_num [sampleBasalt]⟩
  exact ⟨(C10_mol_fractions_nonneg_sum_one sampleBasalt hnn hex).2.1,
    (C10_mol_fractions_nonneg_sum_one sampleBasalt hnn hex).2.2.2⟩

end MSP
